import Mathlib

/-!
Verification of the Animal-Planet-API image service (Express + MongoDB + Multer).

The embedding below models `routes/images.js` and the parts of the stack its
behaviour depends on:

* the Multer disk-storage configuration (destination `uploads/`, filename
  `Date.now() + "-" + file.originalname`);
* the `images` collection of the MongoDB store, with `insertOne`, `find`,
  `findOne` and `updateOne`;
* the four route handlers: POST `/`, GET `/`, GET `/:id`, PUT `/:id`.

JavaScript values that may be `undefined` are modelled with `Option String`
(`none` = the field was absent / `undefined`, stored as a null-ish value by the
driver).  The MongoDB `ObjectId` is modelled by its canonical 24-character
lowercase hex string; the constructor `new ObjectId(s)` throws on anything
that is not a 24-character hex string, which the handlers catch and turn into
an HTTP 500 response carrying the error message.
-/

namespace AnimalPlanet

/-- JavaScript `a || b` on a possibly-undefined string: `undefined` and the
empty string are falsy, so both fall through to the default.  Embeds
`req.body.color || ""` and `req.body.lifeSpan || ""` from the create route. -/
def jsStringOr (v : Option String) (d : String) : String :=
  match v with
  | none => d
  | some s => if s = "" then d else s

/-! ### Decimal rendering of a JS number

`Date.now() + "-" + file.originalname` coerces the millisecond timestamp to
its base-10 string.  We render the decimal digits via `Nat.digits`. -/

/-- The character list of the base-10 representation of `n`, most significant
digit first (JS renders `0` as `"0"`). -/
def natDecimalChars (n : Nat) : List Char :=
  if n = 0 then [Nat.digitChar 0]
  else ((Nat.digits 10 n).map Nat.digitChar).reverse

/-- The base-10 string of a natural number, as JS string coercion renders a
(non-negative integral) number. -/
def natDecimalString (n : Nat) : String :=
  String.mk (natDecimalChars n)

/-! ### Multer disk storage (`multer.diskStorage` block) -/

/-- The filename chosen by the storage callback:
`cb(null, Date.now() + "-" + file.originalname)`. -/
def multerFilename (arrivalMillis : Nat) (originalname : String) : String :=
  natDecimalString arrivalMillis ++ "-" ++ originalname

/-- The file metadata Multer attaches to the request (`req.file`) after
storing the uploaded part: the client-supplied original name and the
generated destination filename. -/
structure MulterFile where
  originalname : String
  filename : String
deriving DecidableEq, Repr

/-- Multer storing one uploaded part that arrived at `arrivalMillis` with
client filename `originalname`: the destination name comes from the
`filename` callback above. -/
def storeFile (arrivalMillis : Nat) (originalname : String) : MulterFile :=
  { originalname := originalname
    filename := multerFilename arrivalMillis originalname }

/-! ### ObjectId -/

/-- Hex-digit test used by the ObjectId constructor's validation. -/
def isHexChar (c : Char) : Bool :=
  c.isDigit || (Char.ofNat 97 ≤ c && c ≤ Char.ofNat 102)
    || (Char.ofNat 65 ≤ c && c ≤ Char.ofNat 70)

/-- `new ObjectId(s)` accepts exactly the 24-character hex strings (the other
accepted inputs — 12-byte buffers, integers — cannot arrive from a URL path
parameter, which is always a string). -/
def isValidObjectIdHex (s : String) : Bool :=
  s.length == 24 && s.data.all isHexChar

/-- `new ObjectId(s)`: `some` canonical (lowercase) id on a well-formed hex
string, `none` when the constructor throws. -/
def parseObjectId (s : String) : Option String :=
  if isValidObjectIdHex s then some s.toLower else none

/-- The message of the error thrown by `new ObjectId` on a malformed input
(BSONError; apostrophes elided). -/
def objectIdErrorMessage : String :=
  "input must be a 24 character hex string, 12 byte Uint8Array, or an integer"

/-- The message of the TypeError raised by `req.file.filename` when no file
part named `image` was uploaded and `req.file` is `undefined`
(apostrophes elided). -/
def missingFileErrorMessage : String :=
  "Cannot read properties of undefined (reading filename)"

/-! ### The document collection -/

/-- One document of the `images` collection.  `name`, `type`, `description`
are stored exactly as received (possibly undefined).  `color` and `lifeSpan`
are written by the create route; `lifespan` (lowercase `s`, a distinct key)
is only ever written by the update route, so it records key absence
(`none`) versus key present with a possibly-undefined value (`some v`). -/
structure StoredDoc where
  _id : String
  name : Option String
  type : Option String
  description : Option String
  color : Option String
  lifeSpan : Option String
  lifespan : Option (Option String)
  imagePath : String
  createdAt : Nat
deriving DecidableEq, Repr

/-- The store state: the `images` collection in insertion order. -/
structure Store where
  images : List StoredDoc
deriving DecidableEq, Repr

/-- The empty database before any request. -/
def Store.empty : Store := { images := [] }

/-- Result of `insertOne` as the driver reports it. -/
structure InsertOneResult where
  acknowledged : Bool
  insertedId : String
deriving DecidableEq, Repr

/-- Result of `updateOne` as the driver reports it (the fields the service
and its spec use). -/
structure UpdateResult where
  acknowledged : Bool
  matchedCount : Nat
  modifiedCount : Nat
deriving DecidableEq, Repr

/-- `db.collection("images").insertOne(doc)`: append the document (with its
driver-generated id already attached) and acknowledge with that id. -/
def Store.insertOne (st : Store) (doc : StoredDoc) : InsertOneResult × Store :=
  ({ acknowledged := true, insertedId := doc._id },
   { images := st.images ++ [doc] })

/-- `db.collection("images").find().toArray()`: every document, in the
collection's scan order. -/
def Store.findAll (st : Store) : List StoredDoc :=
  st.images

/-- `db.collection("images").findOne({ _id: oid })`: the first document whose
id matches, if any. -/
def Store.findOne (st : Store) (oid : String) : Option StoredDoc :=
  st.images.find? (fun d => d._id == oid)

/-! ### Update -/

/-- The JSON body of a PUT request; absent keys are `none`. -/
structure UpdateBody where
  name : Option String
  type : Option String
  description : Option String
  color : Option String
  lifespan : Option String
deriving DecidableEq, Repr

/-- The `$set` document the PUT handler always builds — all five keys, taken
from the request body whether present there or not. -/
def applySet (b : UpdateBody) (d : StoredDoc) : StoredDoc :=
  { d with
    name := b.name
    type := b.type
    description := b.description
    color := b.color
    lifespan := some b.lifespan }

/-- Apply the `$set` to the first document matching the filter id. -/
def setFirstMatch (oid : String) (b : UpdateBody) : List StoredDoc → List StoredDoc
  | [] => []
  | d :: ds =>
    if d._id == oid then applySet b d :: ds else d :: setFirstMatch oid b ds

/-- `updateOne({ _id: oid }, { $set: ... })`: match at most one document,
rewrite it with the `$set`, and report matched/modified counts
(`modifiedCount` is 0 when the `$set` leaves the document identical). -/
def Store.updateOne (st : Store) (oid : String) (b : UpdateBody) :
    UpdateResult × Store :=
  match st.images.find? (fun d => d._id == oid) with
  | none => ({ acknowledged := true, matchedCount := 0, modifiedCount := 0 }, st)
  | some d =>
    ({ acknowledged := true, matchedCount := 1
       modifiedCount := if applySet b d = d then 0 else 1 },
     { images := setFirstMatch oid b st.images })

/-! ### HTTP responses -/

/-- The JSON bodies the four handlers can send. -/
inductive ResponseBody where
  | insertOneResult (r : InsertOneResult)
  | updateResult (r : UpdateResult)
  | docList (docs : List StoredDoc)
  | doc (d : StoredDoc)
  | message (m : String)
deriving DecidableEq, Repr

/-- An HTTP response: status code plus JSON body (`res.json` without an
explicit status sends 200). -/
structure Response where
  status : Nat
  body : ResponseBody
deriving DecidableEq, Repr

/-! ### Route handlers (`routes/images.js`) -/

/-- The multipart text fields of a POST create request, as Multer leaves them
in `req.body`; absent fields are `none` (undefined). -/
structure CreateBody where
  name : Option String
  type : Option String
  description : Option String
  color : Option String
  lifeSpan : Option String
deriving DecidableEq, Repr

/-- A POST create request after Multer ran: text body plus `req.file`
(`none` when no part named `image` was present). -/
structure CreateRequest where
  body : CreateBody
  file : Option MulterFile
deriving DecidableEq, Repr

/-- `router.post("/")`: build `imageData` from the body, the stored file and
the current time, insert it, and answer 201 with the insert acknowledgment;
dereferencing `req.file.filename` with `req.file` undefined throws, which the
`catch` turns into a 500 with the error message.  `now` is `new Date()` (as
epoch milliseconds) and `newOid` is the ObjectId the driver generates for the
insert. -/
def createHandler (st : Store) (req : CreateRequest) (now : Nat)
    (newOid : String) : Response × Store :=
  match req.file with
  | none => ({ status := 500, body := .message missingFileErrorMessage }, st)
  | some f =>
    let imageData : StoredDoc :=
      { _id := newOid
        name := req.body.name
        type := req.body.type
        description := req.body.description
        color := some (jsStringOr req.body.color "")
        lifeSpan := some (jsStringOr req.body.lifeSpan "")
        lifespan := none
        imagePath := "/uploads/" ++ f.filename
        createdAt := now }
    let res := st.insertOne imageData
    ({ status := 201, body := .insertOneResult res.1 }, res.2)

/-- POST `/` end to end: Multer stores the file part (if any) under the
generated name, then the route handler runs.  `filePart` is the uploaded
part as (arrival epoch milliseconds, original client filename). -/
def postPipeline (st : Store) (body : CreateBody)
    (filePart : Option (Nat × String)) (now : Nat) (newOid : String) :
    Response × Store :=
  createHandler st
    { body := body, file := filePart.map (fun p => storeFile p.1 p.2) }
    now newOid

/-- `router.get("/")`: answer 200 with every document. -/
def getAllHandler (st : Store) : Response × Store :=
  ({ status := 200, body := .docList st.findAll }, st)

/-- `router.get("/:id")`: `new ObjectId(id)` throws on a malformed id (caught
as 500 with the error message); otherwise `findOne`, answering the fixed 404
message when nothing matches and 200 with the document when it does. -/
def getByIdHandler (st : Store) (idParam : String) : Response × Store :=
  match parseObjectId idParam with
  | none => ({ status := 500, body := .message objectIdErrorMessage }, st)
  | some oid =>
    match st.findOne oid with
    | none => ({ status := 404, body := .message "Image not found" }, st)
    | some image => ({ status := 200, body := .doc image }, st)

/-- `router.put("/:id")`: `new ObjectId(id)` throws on a malformed id (caught
as 500); otherwise `updateOne` with the always-five-key `$set`, answering 200
with the update result whether or not anything matched. -/
def putHandler (st : Store) (idParam : String) (b : UpdateBody) :
    Response × Store :=
  match parseObjectId idParam with
  | none => ({ status := 500, body := .message objectIdErrorMessage }, st)
  | some oid =>
    let res := st.updateOne oid b
    ({ status := 200, body := .updateResult res.1 }, res.2)

/-- A single upload request event: its arrival time in epoch milliseconds,
the client-supplied filename, and a serial number distinguishing distinct
concurrent requests that arrive within the same millisecond. -/
structure UploadEvent where
  arrivalMillis : Nat
  originalname : String
  serial : Nat
deriving DecidableEq, Repr

/-- The destination filename the storage callback picks for an upload event:
it depends only on the arrival millisecond and the original name, never on
which request it was. -/
def destName (e : UploadEvent) : String :=
  multerFilename e.arrivalMillis e.originalname

/-- The fields of a document the update route never writes:
`_id`, `imagePath`, `createdAt`, and the create-time `lifeSpan` (the update
route writes the differently-spelled `lifespan` key instead). -/
def frameFields (d : StoredDoc) : String × String × Nat × Option String :=
  (d._id, d.imagePath, d.createdAt, d.lifeSpan)

/-! ### Reachable store states

States the service can produce starting from an empty database, via any
sequence of requests.  GET handlers return the store unchanged, so only the
two mutating pipelines appear. -/

/-- Stores reachable from the empty database through the service's routes. -/
inductive Reachable : Store → Prop where
  | init : Reachable Store.empty
  | post (st : Store) (body : CreateBody) (filePart : Option (Nat × String))
      (now : Nat) (newOid : String) (h : Reachable st) :
      Reachable (postPipeline st body filePart now newOid).2
  | put (st : Store) (idParam : String) (b : UpdateBody) (h : Reachable st) :
      Reachable (putHandler st idParam b).2

/-! ## Helper lemmas -/

/-- The GET `/:id` handler never changes the store. -/
theorem getByIdHandler_snd (st : Store) (idParam : String) :
    (getByIdHandler st idParam).2 = st := by
  unfold getByIdHandler
  cases h : parseObjectId idParam with
  | none => rfl
  | some oid => cases h2 : st.findOne oid <;> simp [h2]

/-- `Nat.digitChar` is injective on decimal digits. -/
theorem digitChar_inj_lt_ten :
    ∀ d1 < 10, ∀ d2 < 10, Nat.digitChar d1 = Nat.digitChar d2 → d1 = d2 := by
  decide

/-- Mapping `Nat.digitChar` over lists of decimal digits is injective. -/
theorem map_digitChar_injective :
    ∀ l1 l2 : List Nat, (∀ d ∈ l1, d < 10) → (∀ d ∈ l2, d < 10) →
      l1.map Nat.digitChar = l2.map Nat.digitChar → l1 = l2 := by
  intro l1
  induction l1 with
  | nil => intro l2 _ _ h; cases l2 <;> simp_all
  | cons a as ih =>
    intro l2 h1 h2 h
    cases l2 with
    | nil => simp at h
    | cons b bs =>
      simp only [List.map_cons, List.cons.injEq] at h
      have hab : a = b :=
        digitChar_inj_lt_ten a (h1 a (by simp)) b (h2 b (by simp)) h.1
      subst hab
      have hrest := ih bs (fun d hd => h1 d (by simp [hd]))
        (fun d hd => h2 d (by simp [hd])) h.2
      simp [hrest]

/-- Distinct naturals render to distinct decimal character lists. -/
theorem natDecimalChars_injective : Function.Injective natDecimalChars := by
  intro m n h
  unfold natDecimalChars at h
  by_cases hm : m = 0 <;> by_cases hn : n = 0
  · simp [hm, hn]
  · exfalso
    rw [if_pos hm, if_neg hn] at h
    have hmap : (Nat.digits 10 n).map Nat.digitChar = [Nat.digitChar 0] := by
      have := congrArg List.reverse h
      simpa using this.symm
    have hdig : Nat.digits 10 n = [0] := by
      refine map_digitChar_injective _ [0] ?_ ?_ hmap
      · intro d hd; exact Nat.digits_lt_base (by norm_num) hd
      · intro d hd; simp at hd; simp [hd]
    have hofd := Nat.ofDigits_digits 10 n
    rw [hdig] at hofd
    simp [Nat.ofDigits] at hofd
    exact hn hofd.symm
  · exfalso
    rw [if_neg hm, if_pos hn] at h
    have hmap : (Nat.digits 10 m).map Nat.digitChar = [Nat.digitChar 0] := by
      have := congrArg List.reverse h
      simpa using this
    have hdig : Nat.digits 10 m = [0] := by
      refine map_digitChar_injective _ [0] ?_ ?_ hmap
      · intro d hd; exact Nat.digits_lt_base (by norm_num) hd
      · intro d hd; simp at hd; simp [hd]
    have hofd := Nat.ofDigits_digits 10 m
    rw [hdig] at hofd
    simp [Nat.ofDigits] at hofd
    exact hm hofd.symm
  · rw [if_neg hm, if_neg hn] at h
    have hmap := List.reverse_injective h
    have hdig : Nat.digits 10 m = Nat.digits 10 n := by
      refine map_digitChar_injective _ _ ?_ ?_ hmap
      · intro d hd; exact Nat.digits_lt_base (by norm_num) hd
      · intro d hd; exact Nat.digits_lt_base (by norm_num) hd
    exact Nat.digits_inj_iff.mp hdig

/-- Distinct naturals render to distinct decimal strings. -/
theorem natDecimalString_injective : Function.Injective natDecimalString := by
  intro m n h
  exact natDecimalChars_injective (congrArg String.data h)

/-- Two uploads with the same original filename but different arrival
milliseconds get different destination filenames. -/
theorem multerFilename_millis_injective (t1 t2 : Nat) (orig : String)
    (h : t1 ≠ t2) : multerFilename t1 orig ≠ multerFilename t2 orig := by
  intro he
  apply h
  apply natDecimalString_injective
  apply String.ext
  have hd := congrArg String.data he
  simp only [multerFilename, String.data_append, List.append_assoc] at hd
  exact List.append_cancel_right hd

/-- `setFirstMatch` leaves `_id`, `imagePath`, `createdAt` and `lifeSpan` of
every document in place. -/
theorem setFirstMatch_map_frameFields (oid : String) (b : UpdateBody) :
    ∀ l : List StoredDoc,
      (setFirstMatch oid b l).map frameFields = l.map frameFields := by
  intro l
  induction l with
  | nil => rfl
  | cons d ds ih =>
    unfold setFirstMatch
    split
    · simp [frameFields, applySet]
    · simp [ih]

/-- `setFirstMatch` leaves every document's `imagePath` in place. -/
theorem setFirstMatch_map_imagePath (oid : String) (b : UpdateBody) :
    ∀ l : List StoredDoc,
      (setFirstMatch oid b l).map (fun d => d.imagePath) =
        l.map (fun d => d.imagePath) := by
  intro l
  induction l with
  | nil => rfl
  | cons d ds ih =>
    unfold setFirstMatch
    split
    · simp [applySet]
    · simp [ih]

/-- Any document of `setFirstMatch oid b l` shares its `imagePath` with some
document of `l`. -/
theorem mem_setFirstMatch_imagePath (oid : String) (b : UpdateBody)
    (l : List StoredDoc) (d : StoredDoc) (hd : d ∈ setFirstMatch oid b l) :
    ∃ d0 ∈ l, d.imagePath = d0.imagePath := by
  have h1 : d.imagePath ∈ (setFirstMatch oid b l).map (fun x => x.imagePath) :=
    List.mem_map_of_mem _ hd
  rw [setFirstMatch_map_imagePath] at h1
  obtain ⟨d0, hd0, hpath⟩ := List.mem_map.mp h1
  exact ⟨d0, hd0, hpath.symm⟩

/-- In every reachable store, each document's `imagePath` is `/uploads/`
followed by a Multer-generated filename. -/
theorem reachable_imagePath_shape (st : Store) (h : Reachable st) :
    ∀ d ∈ st.images, ∃ t orig,
      d.imagePath = "/uploads/" ++ multerFilename t orig := by
  induction h with
  | init => intro d hd; simp [Store.empty] at hd
  | post st body filePart now newOid hst ih =>
    intro d hd
    cases filePart with
    | none => exact ih d hd
    | some p =>
      simp only [postPipeline, Option.map, createHandler,
        Store.insertOne, List.mem_append] at hd
      rcases hd with hd | hd
      · exact ih d hd
      · simp at hd
        subst hd
        exact ⟨p.1, p.2, rfl⟩
  | put st idParam b hst ih =>
    intro d hd
    unfold putHandler at hd
    cases hp : parseObjectId idParam with
    | none => rw [hp] at hd; exact ih d hd
    | some oid =>
      rw [hp] at hd
      simp only [Store.updateOne] at hd
      cases hf : st.images.find? (fun x => x._id == oid) with
      | none => rw [hf] at hd; exact ih d hd
      | some d1 =>
        rw [hf] at hd
        simp only at hd
        obtain ⟨d0, hd0, hpath⟩ := mem_setFirstMatch_imagePath oid b _ d hd
        obtain ⟨t, orig, horig⟩ := ih d0 hd0
        exact ⟨t, orig, hpath.trans horig⟩

/-! ## Claim theorems -/

/-- C1: a POST create request carrying an `image` file part and text fields
inserts exactly one document whose `name`, `type` and `description` come from
the request body, whose `color` and `lifeSpan` default to the empty string
when absent, whose `imagePath` is `/uploads/` followed by the stored
filename and whose `createdAt` is the creation time, and the handler responds
HTTP 201 with the store's insert acknowledgment (success flag and generated
id). -/
theorem create_with_file_inserts_exactly_one_document
    (st : Store) (body : CreateBody) (f : MulterFile) (now : Nat)
    (newOid : String) :
    (createHandler st { body := body, file := some f } now newOid).1.status
      = 201 ∧
    (createHandler st { body := body, file := some f } now newOid).1.body =
      .insertOneResult { acknowledged := true, insertedId := newOid } ∧
    (createHandler st { body := body, file := some f } now newOid).2.images =
      st.images ++
        [{ _id := newOid
           name := body.name
           type := body.type
           description := body.description
           color := some (jsStringOr body.color "")
           lifeSpan := some (jsStringOr body.lifeSpan "")
           lifespan := none
           imagePath := "/uploads/" ++ f.filename
           createdAt := now }] ∧
    (body.color = none → jsStringOr body.color "" = "") ∧
    (body.lifeSpan = none → jsStringOr body.lifeSpan "" = "") := by
  refine ⟨rfl, rfl, rfl, ?_, ?_⟩ <;> intro h <;> simp [jsStringOr, h]

/-- Witness for C1 at a concrete request. -/
theorem create_with_file_inserts_exactly_one_document_witness :
    (createHandler Store.empty
      { body := { name := some "Cat", type := some "Mammal",
                  description := some "A small cat", color := none,
                  lifeSpan := none },
        file := some (storeFile 5 "cat.jpg") } 7
      "aaaaaaaaaaaaaaaaaaaaaaaa").1.status = 201 :=
  (create_with_file_inserts_exactly_one_document Store.empty
    { name := some "Cat", type := some "Mammal",
      description := some "A small cat", color := none, lifeSpan := none }
    (storeFile 5 "cat.jpg") 7 "aaaaaaaaaaaaaaaaaaaaaaaa").1

/-- C2: the PUT handler always sends all five keys `name`, `type`,
`description`, `color`, `lifespan` in its `$set`, so a field omitted from the
request body is explicitly set to undefined on the stored record rather than
left untouched, and the handler responds HTTP 200 with the store's update
result. -/
theorem update_always_sends_all_five_keys
    (st : Store) (idParam : String) (b : UpdateBody)
    (h : isValidObjectIdHex idParam = true) :
    (putHandler st idParam b).1.status = 200 ∧
    (putHandler st idParam b).1.body =
      .updateResult (st.updateOne idParam.toLower b).1 ∧
    ∀ d : StoredDoc,
      (applySet b d).name = b.name ∧
      (applySet b d).type = b.type ∧
      (applySet b d).description = b.description ∧
      (applySet b d).color = b.color ∧
      (applySet b d).lifespan = some b.lifespan := by
  have hp : parseObjectId idParam = some idParam.toLower := by
    simp [parseObjectId, h]
  refine ⟨?_, ?_, fun d => ⟨rfl, rfl, rfl, rfl, rfl⟩⟩ <;>
    simp [putHandler, hp]

/-- Witness for C2 at a concrete request. -/
theorem update_always_sends_all_five_keys_witness :
    (putHandler Store.empty "aaaaaaaaaaaaaaaaaaaaaaaa"
      { name := none, type := none, description := none, color := none,
        lifespan := none }).1.status = 200 :=
  (update_always_sends_all_five_keys Store.empty "aaaaaaaaaaaaaaaaaaaaaaaa"
    { name := none, type := none, description := none, color := none,
      lifespan := none } (by decide)).1

/-- C3: an update leaves every record's `_id`, `imagePath`, `createdAt` and
create-time `lifeSpan` unchanged — the `$set` writes the differently-spelled
`lifespan` key — and only the five text fields of the `$set` may change. -/
theorem update_never_touches_id_imagePath_createdAt_lifeSpan
    (st : Store) (idParam : String) (b : UpdateBody) :
    (putHandler st idParam b).2.images.map frameFields =
      st.images.map frameFields ∧
    ∀ d : StoredDoc,
      (applySet b d)._id = d._id ∧
      (applySet b d).imagePath = d.imagePath ∧
      (applySet b d).createdAt = d.createdAt ∧
      (applySet b d).lifeSpan = d.lifeSpan ∧
      (applySet b d).lifespan = some b.lifespan := by
  constructor
  · unfold putHandler
    cases hp : parseObjectId idParam with
    | none => rfl
    | some oid =>
      simp only [Store.updateOne]
      cases hf : st.images.find? (fun x => x._id == oid) with
      | none => rfl
      | some d1 => simpa using setFirstMatch_map_frameFields oid b st.images
  · exact fun d => ⟨rfl, rfl, rfl, rfl, rfl⟩

/-- C4: a GET `/:id` with a well-formed identifier answers the fixed 404
message when no record matches and 200 with the single matching record when
one does. -/
theorem get_by_id_well_formed_404_or_200
    (st : Store) (idParam : String) (h : isValidObjectIdHex idParam = true) :
    (st.findOne idParam.toLower = none →
      getByIdHandler st idParam =
        ({ status := 404, body := .message "Image not found" }, st)) ∧
    ∀ d : StoredDoc, st.findOne idParam.toLower = some d →
      getByIdHandler st idParam = ({ status := 200, body := .doc d }, st) := by
  have hp : parseObjectId idParam = some idParam.toLower := by
    simp [parseObjectId, h]
  constructor
  · intro hf; simp [getByIdHandler, hp, hf]
  · intro d hf; simp [getByIdHandler, hp, hf]

/-- Witness for C4 at a concrete request against the empty store. -/
theorem get_by_id_well_formed_404_or_200_witness :
    getByIdHandler Store.empty "aaaaaaaaaaaaaaaaaaaaaaaa" =
      ({ status := 404, body := .message "Image not found" }, Store.empty) :=
  (get_by_id_well_formed_404_or_200 Store.empty "aaaaaaaaaaaaaaaaaaaaaaaa"
    (by decide)).1 rfl

/-- C5: a GET `/:id` whose identifier the ObjectId constructor rejects
surfaces as HTTP 500 carrying the raised error's message, not as 404. -/
theorem get_by_id_malformed_id_is_500_not_404
    (st : Store) (idParam : String) (h : isValidObjectIdHex idParam = false) :
    getByIdHandler st idParam =
      ({ status := 500, body := .message objectIdErrorMessage }, st) ∧
    (getByIdHandler st idParam).1.status ≠ 404 := by
  have hp : parseObjectId idParam = none := by simp [parseObjectId, h]
  constructor
  · simp [getByIdHandler, hp]
  · simp [getByIdHandler, hp]

/-- Witness for C5 at a concrete malformed identifier. -/
theorem get_by_id_malformed_id_is_500_not_404_witness :
    getByIdHandler Store.empty "not-an-id" =
      ({ status := 500, body := .message objectIdErrorMessage },
       Store.empty) :=
  (get_by_id_malformed_id_is_500_not_404 Store.empty "not-an-id"
    (by decide)).1

/-- C6: a PUT naming a well-formed identifier that matches no record answers
HTTP 200 with matched-count 0, creates no record and does not answer 404. -/
theorem update_nonexistent_id_matches_zero
    (st : Store) (idParam : String) (b : UpdateBody)
    (h : isValidObjectIdHex idParam = true)
    (hnone : st.findOne idParam.toLower = none) :
    putHandler st idParam b =
      ({ status := 200,
         body := .updateResult
           { acknowledged := true, matchedCount := 0, modifiedCount := 0 } },
       st) := by
  have hp : parseObjectId idParam = some idParam.toLower := by
    simp [parseObjectId, h]
  unfold Store.findOne at hnone
  simp [putHandler, hp, Store.updateOne, hnone]

/-- Witness for C6 at a concrete request against the empty store. -/
theorem update_nonexistent_id_matches_zero_witness :
    putHandler Store.empty "aaaaaaaaaaaaaaaaaaaaaaaa"
      { name := some "x", type := none, description := none, color := none,
        lifespan := none } =
      ({ status := 200,
         body := .updateResult
           { acknowledged := true, matchedCount := 0, modifiedCount := 0 } },
       Store.empty) :=
  update_nonexistent_id_matches_zero Store.empty "aaaaaaaaaaaaaaaaaaaaaaaa"
    { name := some "x", type := none, description := none, color := none,
      lifespan := none } (by decide) rfl

/-- C7 (counterexample): the naming scheme does NOT guarantee distinct
destination names for every pair of distinct concurrent uploads with
identical source filenames — two distinct requests arriving within the same
millisecond with the same client filename get the same destination name. -/
theorem same_millis_same_name_uploads_collide :
    ¬ ∀ e1 e2 : UploadEvent, e1 ≠ e2 → e1.originalname = e2.originalname →
        destName e1 ≠ destName e2 := by
  intro hclaim
  exact hclaim ⟨5, "cat.jpg", 0⟩ ⟨5, "cat.jpg", 1⟩ (by decide) rfl rfl

/-- C7 (amended): uploads are stored under
`{arrival-epoch-millis}-{original-filename}`; uploads with identical source
filenames get distinct destination names whenever their arrival milliseconds
differ (same-millisecond arrivals with the same filename collide); and in
every reachable store each record's `imagePath` is `/uploads/` followed by
such a generated name. -/
theorem upload_naming_and_imagePath_invariant
    (e1 e2 : UploadEvent) (horig : e1.originalname = e2.originalname)
    (hmillis : e1.arrivalMillis ≠ e2.arrivalMillis) :
    destName e1 ≠ destName e2 ∧
    (∀ t orig, (storeFile t orig).filename = multerFilename t orig) ∧
    ∀ st : Store, Reachable st → ∀ d ∈ st.images, ∃ t orig,
      d.imagePath = "/uploads/" ++ multerFilename t orig := by
  refine ⟨?_, fun t orig => rfl, fun st h => reachable_imagePath_shape st h⟩
  unfold destName
  rw [horig]
  exact multerFilename_millis_injective _ _ _ hmillis

/-- Witness for the amended C7 at two concrete upload events. -/
theorem upload_naming_and_imagePath_invariant_witness :
    destName ⟨1, "cat.jpg", 0⟩ ≠ destName ⟨2, "cat.jpg", 0⟩ :=
  (upload_naming_and_imagePath_invariant ⟨1, "cat.jpg", 0⟩ ⟨2, "cat.jpg", 0⟩
    rfl (by decide)).1

/-- C8: a POST create request whose multipart body lacks the file part named
`image` fails when the handler dereferences the missing file metadata,
answers HTTP 500 with the raised error's message, and inserts nothing. -/
theorem create_without_image_part_is_500_and_inserts_nothing
    (st : Store) (body : CreateBody) (now : Nat) (newOid : String) :
    postPipeline st body none now newOid =
      ({ status := 500, body := .message missingFileErrorMessage }, st) :=
  rfl

/-- C9: the create route validates nothing before inserting — whatever the
text body, including one missing `name`, `type` or `description`, exactly one
record is inserted, storing the request's (possibly undefined) values for
those fields, and the handler answers 201. -/
theorem create_has_no_required_field_validation
    (st : Store) (body : CreateBody) (f : MulterFile) (now : Nat)
    (newOid : String) :
    (createHandler st { body := body, file := some f } now newOid).1.status
      = 201 ∧
    ∃ d : StoredDoc,
      (createHandler st { body := body, file := some f } now newOid).2.images
        = st.images ++ [d] ∧
      d.name = body.name ∧ d.type = body.type ∧
      d.description = body.description := by
  exact ⟨rfl, _, rfl, rfl, rfl, rfl⟩

/-- C10: the list and get-by-id routes are read-only — the store after either
call equals the store before it, and repeating either call against the
unchanged store yields the same response. -/
theorem list_and_get_by_id_are_read_only (st : Store) (idParam : String) :
    (getAllHandler st).2 = st ∧
    (getByIdHandler st idParam).2 = st ∧
    getAllHandler (getAllHandler st).2 = getAllHandler st ∧
    getByIdHandler (getByIdHandler st idParam).2 idParam =
      getByIdHandler st idParam := by
  refine ⟨rfl, getByIdHandler_snd st idParam, rfl, ?_⟩
  rw [getByIdHandler_snd]

end AnimalPlanet
